import Mathlib

/-!
Verification of `base/message_pump_uv.cc` (class `base::MessagePumpUV`).

The pump drives a delegate's three work bands (immediate, delayed, idle) and
falls back to blocking in libuv's `uv_run` when the delegate reports no work.
We embed the pump state, the body of the `for (;;)` loop in
`MessagePumpUV::Run`, the surrounding entry/exit bookkeeping, and the
constructor/destructor, as executable Lean functions.

Modelling conventions:
- Delegate calls (`DoWork`, `DoDelayedWork`, `DoIdleWork`) and callback-running
  reactor calls (`CallTickCallback`, `uv_run`) may reentrantly mutate the
  pump's `keep_running_` flag (e.g. via `Quit`); each call's observable result
  is supplied by a `DelegateResponses` record, one per loop iteration, so
  theorems quantify over all sequences of delegate responses.
- `uv_async_t` handles are identified by natural numbers allocated from a
  counter; `0` plays the role of the null pointer.  The handle allocated by
  the constructor is `1`.
- `base::TimeTicks` / `base::TimeDelta` are not part of the sources under
  study.  Modelled from the spec: the delayed-work deadline is an optional
  absolute timestamp (`none` = "no pending delayed work known"), timestamps
  and durations are integers in a single time unit, and the duration passed
  to `uv_timer_start` (`delay.InMilliseconds()` in the source) is the
  remaining delay itself.
- `DCHECK` failures are modelled as fatal errors (`Except.error`).
- The guarded statement `if (node::g_env) node::CallTickCallback(...)` is
  modelled as the single event `tick` (the guard only tests whether the host
  runtime is present; the spec's `Reactor.NotifyContinuation` is a no-op when
  it is absent).
-/

namespace MessagePumpUV

/-- Observable calls made by one iteration of the `for (;;)` loop in
`MessagePumpUV::Run` (and the teardown calls at exit).  Work events record the
boolean the delegate returned; `timerStart` records the duration passed to
`uv_timer_start`. -/
inductive Event where
  | doWork (ret : Bool)
  | doDelayedWork (ret : Bool)
  | tick
  | doIdleWork (ret : Bool)
  | timerStart (timeout : Int)
  | uvRun
  | idleStop
  | timerStop
  deriving DecidableEq, Repr

/-- The pump's state: members of `base::MessagePumpUV` plus bookkeeping for
handle identity.  `keepRunning` is `keep_running_`, `nestingLevel` is
`nesting_level_`, `delayedWorkTime` is `delayed_work_time_` (an optional
timestamp, `none` for `TimeTicks()`), `wakeupEvent` is `wakeup_event_` and
`wakeupRef` is `wakeup_event_ref_` (both handle ids, `0` = NULL).
`nextHandle` is the allocation counter for fresh `uv_async_t` handles,
`liveNestedLoops` counts private loops created by `uv_loop_new` and not yet
destroyed by `uv_loop_delete`, and `deletedHandles` records every handle id
passed to `delete`. -/
structure PumpState where
  keepRunning : Bool
  nestingLevel : Nat
  delayedWorkTime : Option Int
  wakeupEvent : Nat
  wakeupRef : Nat
  nextHandle : Nat
  liveNestedLoops : Nat
  deletedHandles : List Nat
  deriving DecidableEq, Repr

/-- `MessagePumpUV::MessagePumpUV()`: `keep_running_ = true`,
`nesting_level_ = 0`, and `wakeup_event_ref_ = wakeup_event_ = new uv_async_t`
(handle `1`), initialised on the default loop. -/
def construct : PumpState :=
  { keepRunning := true
    nestingLevel := 0
    delayedWorkTime := none
    wakeupEvent := 1
    wakeupRef := 1
    nextHandle := 2
    liveNestedLoops := 0
    deletedHandles := [] }

/-- Fatal contract violations (a failed `DCHECK`). -/
inductive Fatal where
  | dcheckFailure (msg : String)
  deriving DecidableEq, Repr

/-- `MessagePumpUV::~MessagePumpUV()`: `delete wakeup_event_;
wakeup_event_ = NULL;`.  The destructor performs no check of any kind. -/
def destruct (s : PumpState) : Except Fatal PumpState :=
  Except.ok { s with
    deletedHandles := s.wakeupEvent :: s.deletedHandles
    wakeupEvent := 0 }

/-- The observable outcome of one loop iteration's delegate and reactor
callbacks.  `keepAfterX` is the value of `keep_running_` immediately after
call `X` returns (the call may have run `Quit`, or nested `Run` invocations,
reentrantly); `delayedTimeSet` is the deadline `DoDelayedWork` stores through
its `TimeTicks*` argument into `delayed_work_time_`; `now` is the value of
`TimeTicks::Now()` at the blocking decision. -/
structure DelegateResponses where
  doWorkRet : Bool
  keepAfterDoWork : Bool
  doDelayedRet : Bool
  delayedTimeSet : Option Int
  keepAfterDelayed : Bool
  doIdleRet : Bool
  keepAfterIdle : Bool
  keepAfterTick : Bool
  keepAfterPoll : Bool
  now : Int
  deriving DecidableEq, Repr

/-- Whether the iteration left the loop (`break`) or fell through /
`continue`d to the next iteration. -/
inductive IterOutcome where
  | brk
  | next
  deriving DecidableEq, Repr

/-- One iteration of the `for (;;)` loop of `MessagePumpUV::Run`
(message_pump_uv.cc lines 75-121), transcribed branch by branch:

1. `bool did_work = delegate->DoWork(); if (!keep_running_) break;`
2. `did_work |= delegate->DoDelayedWork(&delayed_work_time_);
   if (!keep_running_) break;`
3. `if (did_work) { if (node::g_env) node::CallTickCallback(...); continue; }`
4. `did_work = delegate->DoIdleWork(); if (!keep_running_) break;`
5. `if (did_work) { if (node::g_env) node::CallTickCallback(...); continue; }`
6. `if (delayed_work_time_.is_null()) { uv_run(loop, UV_RUN_ONCE); }
   else { TimeDelta delay = delayed_work_time_ - TimeTicks::Now();
     if (delay > TimeDelta()) { uv_timer_start(&delay_timer, timer_callback,
       delay.InMilliseconds(), 0); uv_run(loop, UV_RUN_ONCE);
       uv_idle_stop(&idle_handle); uv_timer_stop(&delay_timer); }
     else { delayed_work_time_ = TimeTicks(); } }`

In step 6 the member `delayed_work_time_` read by `is_null` is the value
`DoDelayedWork` just stored, i.e. `r.delayedTimeSet`. -/
def iter (r : DelegateResponses) (s : PumpState) :
    List Event × PumpState × IterOutcome :=
  if !r.keepAfterDoWork then
    ([Event.doWork r.doWorkRet],
     { s with keepRunning := r.keepAfterDoWork }, IterOutcome.brk)
  else if !r.keepAfterDelayed then
    ([Event.doWork r.doWorkRet, Event.doDelayedWork r.doDelayedRet],
     { s with delayedWorkTime := r.delayedTimeSet
              keepRunning := r.keepAfterDelayed }, IterOutcome.brk)
  else if r.doWorkRet || r.doDelayedRet then
    ([Event.doWork r.doWorkRet, Event.doDelayedWork r.doDelayedRet,
      Event.tick],
     { s with delayedWorkTime := r.delayedTimeSet
              keepRunning := r.keepAfterTick }, IterOutcome.next)
  else if !r.keepAfterIdle then
    ([Event.doWork r.doWorkRet, Event.doDelayedWork r.doDelayedRet,
      Event.doIdleWork r.doIdleRet],
     { s with delayedWorkTime := r.delayedTimeSet
              keepRunning := r.keepAfterIdle }, IterOutcome.brk)
  else if r.doIdleRet then
    ([Event.doWork r.doWorkRet, Event.doDelayedWork r.doDelayedRet,
      Event.doIdleWork r.doIdleRet, Event.tick],
     { s with delayedWorkTime := r.delayedTimeSet
              keepRunning := r.keepAfterTick }, IterOutcome.next)
  else
    match r.delayedTimeSet with
    | none =>
      ([Event.doWork r.doWorkRet, Event.doDelayedWork r.doDelayedRet,
        Event.doIdleWork r.doIdleRet, Event.uvRun],
       { s with delayedWorkTime := none
                keepRunning := r.keepAfterPoll }, IterOutcome.next)
    | some t =>
      if 0 < t - r.now then
        ([Event.doWork r.doWorkRet, Event.doDelayedWork r.doDelayedRet,
          Event.doIdleWork r.doIdleRet, Event.timerStart (t - r.now),
          Event.uvRun, Event.idleStop, Event.timerStop],
         { s with delayedWorkTime := some t
                  keepRunning := r.keepAfterPoll }, IterOutcome.next)
      else
        ([Event.doWork r.doWorkRet, Event.doDelayedWork r.doDelayedRet,
          Event.doIdleWork r.doIdleRet],
         { s with delayedWorkTime := none
                  keepRunning := r.keepAfterIdle }, IterOutcome.next)

/-- Result of driving the loop with a bounded amount of fuel (number of
iterations): either the loop ran `break` (`terminated`) or the fuel ran out
with the loop still going (`fuelOut`).  Both carry the concatenated event
trace and the pump state reached. -/
inductive RunResult where
  | terminated (tr : List Event) (s : PumpState)
  | fuelOut (tr : List Event) (s : PumpState)
  deriving DecidableEq, Repr

/-- The `for (;;)` loop of `MessagePumpUV::Run`, iterated at most `fuel`
times; `d i` supplies the delegate/callback responses of iteration `i`. -/
def runLoop (d : Nat → DelegateResponses) :
    Nat → Nat → PumpState → RunResult
  | 0, _, s => RunResult.fuelOut [] s
  | fuel + 1, i, s =>
    match iter (d i) s with
    | (ev, s1, IterOutcome.brk) => RunResult.terminated ev s1
    | (ev, s1, IterOutcome.next) =>
      match runLoop d fuel (i + 1) s1 with
      | RunResult.terminated tr s2 => RunResult.terminated (ev ++ tr) s2
      | RunResult.fuelOut tr s2 => RunResult.fuelOut (ev ++ tr) s2

/-- The entry bookkeeping of `MessagePumpUV::Run` (lines 53-64):
`++nesting_level_;` and then, if `nesting_level_ > 1`, `loop = uv_loop_new();
wakeup_event_ref_ = new uv_async_t; uv_async_init(loop, wakeup_event_ref_,
wakeup_callback);` — a fresh private loop and a fresh async handle become
current (the previous `wakeup_event_ref_` is simply overwritten). -/
def runEnter (s : PumpState) : PumpState :=
  if 1 < s.nestingLevel + 1 then
    { s with nestingLevel := s.nestingLevel + 1
             wakeupRef := s.nextHandle
             nextHandle := s.nextHandle + 1
             liveNestedLoops := s.liveNestedLoops + 1 }
  else
    { s with nestingLevel := s.nestingLevel + 1 }

/-- The exit bookkeeping of `MessagePumpUV::Run` (lines 123-133): if
`nesting_level_ > 1`, `uv_loop_delete(loop); delete wakeup_event_ref_;
wakeup_event_ref_ = wakeup_event_;`; then unconditionally
`keep_running_ = true; --nesting_level_;`. -/
def runExit (s : PumpState) : PumpState :=
  if 1 < s.nestingLevel then
    { s with liveNestedLoops := s.liveNestedLoops - 1
             deletedHandles := s.wakeupRef :: s.deletedHandles
             wakeupRef := s.wakeupEvent
             keepRunning := true
             nestingLevel := s.nestingLevel - 1 }
  else
    { s with keepRunning := true
             nestingLevel := s.nestingLevel - 1 }

/-- `MessagePumpUV::Run(Delegate*)` (message_pump_uv.cc lines 49-134): the
entry bookkeeping with its
`DCHECK(keep_running_) << "Quit must have been called outside of Run!";`
(the flag is not changed by the nesting increment, so the check is stated on
the entry state; a failed `DCHECK` is fatal and returns no state), the
`for (;;)` loop, and the exit bookkeeping.  A `fuelOut` result is returned
as-is: it represents a run invocation that has not yet returned, so none of
the exit bookkeeping has happened. -/
def run (d : Nat → DelegateResponses) (fuel : Nat) (s : PumpState) :
    Except Fatal RunResult :=
  if !s.keepRunning then
    Except.error
      (Fatal.dcheckFailure "Quit must have been called outside of Run!")
  else
    match runLoop d fuel 0 (runEnter s) with
    | RunResult.fuelOut tr s1 => Except.ok (RunResult.fuelOut tr s1)
    | RunResult.terminated tr s1 =>
      Except.ok (RunResult.terminated tr (runExit s1))

/-- Events that belong to the priority chain of the loop: the three delegate
work bands and the blocking reactor poll. -/
def coreEvent : Event → Bool
  | Event.doWork _ => true
  | Event.doDelayedWork _ => true
  | Event.doIdleWork _ => true
  | Event.uvRun => true
  | _ => false

/-- The loop's priority order: immediate work before delayed work before idle
work before the blocking poll. -/
def priorityRank : Event → Nat
  | Event.doWork _ => 0
  | Event.doDelayedWork _ => 1
  | Event.doIdleWork _ => 2
  | _ => 3

/-- `MessagePumpUV::Quit()`: `keep_running_ = false;`. -/
def quit (s : PumpState) : PumpState :=
  { s with keepRunning := false }

/-- `MessagePumpUV::ScheduleDelayedWork(const TimeTicks&)`:
`delayed_work_time_ = delayed_work_time;`. -/
def scheduleDelayedWork (t : Option Int) (s : PumpState) : PumpState :=
  { s with delayedWorkTime := t }

/-- C1: within every single iteration of the Run loop, for all delegate
responses, the immediate-work call (`DoWork`) comes before the delayed-work
call (`DoDelayedWork`), which comes before the idle-work call (`DoIdleWork`),
which comes before any blocking reactor poll (`uv_run`): the events of the
priority chain occur in strictly increasing priority rank, so each occurs at
most once and the order is never permuted. -/
theorem claim1_priority_order (r : DelegateResponses) (s : PumpState) :
    ((iter r s).1.filter coreEvent).Pairwise
      (fun a b => priorityRank a < priorityRank b) := by
  unfold iter
  repeat' split
  all_goals simp [coreEvent, priorityRank]

/-- Every iteration's event trace begins with the `DoWork` call: the loop
body calls `delegate->DoWork()` before anything else, including before the
first check of `keep_running_`. -/
theorem iter_events_head (r : DelegateResponses) (s : PumpState) :
    ∃ tl, (iter r s).1 = Event.doWork r.doWorkRet :: tl := by
  unfold iter
  repeat' split
  all_goals exact ⟨_, rfl⟩

/-- One loop iteration only mutates `keep_running_` and `delayed_work_time_`;
all handle bookkeeping and the nesting level are untouched. -/
theorem iter_preserves (r : DelegateResponses) (s : PumpState) :
    (iter r s).2.1.nestingLevel = s.nestingLevel ∧
    (iter r s).2.1.wakeupEvent = s.wakeupEvent ∧
    (iter r s).2.1.wakeupRef = s.wakeupRef ∧
    (iter r s).2.1.nextHandle = s.nextHandle ∧
    (iter r s).2.1.liveNestedLoops = s.liveNestedLoops ∧
    (iter r s).2.1.deletedHandles = s.deletedHandles := by
  unfold iter
  repeat' split
  all_goals simp

/-- If the loop terminates (runs `break`), the final state has the nesting
level of the state the loop started from. -/
theorem runLoop_nesting (d : Nat → DelegateResponses) :
    ∀ fuel i s tr s2, runLoop d fuel i s = RunResult.terminated tr s2 →
      s2.nestingLevel = s.nestingLevel := by
  intro fuel
  induction fuel with
  | zero =>
    intro i s tr s2 h
    simp [runLoop] at h
  | succ n ih =>
    intro i s tr s2 h
    rcases hit : iter (d i) s with ⟨ev, s1, out⟩
    simp only [runLoop, hit] at h
    have hpres := (iter_preserves (d i) s).1
    rw [hit] at hpres
    dsimp only at hpres
    cases out with
    | brk =>
      dsimp only at h
      injection h with h1 h2
      subst h2
      exact hpres
    | next =>
      dsimp only at h
      rcases hrec : runLoop d n (i + 1) s1 with ⟨tr2, s3⟩ | ⟨tr2, s3⟩
      · rw [hrec] at h
        injection h with h1 h2
        subst h2
        exact (ih (i + 1) s1 tr2 s3 hrec).trans hpres
      · rw [hrec] at h
        exact absurd h (by simp)

/-- If the loop terminates, the `DoWork` call of its first iteration is in
the event trace. -/
theorem runLoop_terminated_doWork (d : Nat → DelegateResponses) :
    ∀ fuel i s tr s2, runLoop d fuel i s = RunResult.terminated tr s2 →
      Event.doWork ((d i).doWorkRet) ∈ tr := by
  intro fuel i s tr s2 h
  cases fuel with
  | zero =>
    simp [runLoop] at h
  | succ n =>
    rcases hit : iter (d i) s with ⟨ev, s1, out⟩
    simp only [runLoop, hit] at h
    obtain ⟨tl, htl⟩ := iter_events_head (d i) s
    rw [hit] at htl
    dsimp only at htl
    cases out with
    | brk =>
      dsimp only at h
      injection h with h1 h2
      subst h1
      simp [htl]
    | next =>
      dsimp only at h
      rcases hrec : runLoop d n (i + 1) s1 with ⟨tr2, s3⟩ | ⟨tr2, s3⟩
      · rw [hrec] at h
        injection h with h1 h2
        subst h1
        simp [htl]
      · rw [hrec] at h
        exact absurd h (by simp)

/-- Exhaustive case analysis of one loop iteration: exactly one of the eight
branches of the loop body applies, and in each the produced events, state
update and outcome are the explicit ones transcribed from the source. -/
theorem iter_shape (r : DelegateResponses) (s : PumpState) :
    (r.keepAfterDoWork = false ∧
      iter r s = ([Event.doWork r.doWorkRet],
        { s with keepRunning := r.keepAfterDoWork }, IterOutcome.brk)) ∨
    (r.keepAfterDoWork = true ∧ r.keepAfterDelayed = false ∧
      iter r s = ([Event.doWork r.doWorkRet,
          Event.doDelayedWork r.doDelayedRet],
        { s with delayedWorkTime := r.delayedTimeSet
                 keepRunning := r.keepAfterDelayed }, IterOutcome.brk)) ∨
    (r.keepAfterDoWork = true ∧ r.keepAfterDelayed = true ∧
      (r.doWorkRet || r.doDelayedRet) = true ∧
      iter r s = ([Event.doWork r.doWorkRet,
          Event.doDelayedWork r.doDelayedRet, Event.tick],
        { s with delayedWorkTime := r.delayedTimeSet
                 keepRunning := r.keepAfterTick }, IterOutcome.next)) ∨
    (r.keepAfterDoWork = true ∧ r.keepAfterDelayed = true ∧
      r.doWorkRet = false ∧ r.doDelayedRet = false ∧
      r.keepAfterIdle = false ∧
      iter r s = ([Event.doWork r.doWorkRet,
          Event.doDelayedWork r.doDelayedRet, Event.doIdleWork r.doIdleRet],
        { s with delayedWorkTime := r.delayedTimeSet
                 keepRunning := r.keepAfterIdle }, IterOutcome.brk)) ∨
    (r.keepAfterDoWork = true ∧ r.keepAfterDelayed = true ∧
      r.doWorkRet = false ∧ r.doDelayedRet = false ∧
      r.keepAfterIdle = true ∧ r.doIdleRet = true ∧
      iter r s = ([Event.doWork r.doWorkRet,
          Event.doDelayedWork r.doDelayedRet, Event.doIdleWork r.doIdleRet,
          Event.tick],
        { s with delayedWorkTime := r.delayedTimeSet
                 keepRunning := r.keepAfterTick }, IterOutcome.next)) ∨
    (r.keepAfterDoWork = true ∧ r.keepAfterDelayed = true ∧
      r.doWorkRet = false ∧ r.doDelayedRet = false ∧
      r.keepAfterIdle = true ∧ r.doIdleRet = false ∧
      r.delayedTimeSet = none ∧
      iter r s = ([Event.doWork r.doWorkRet,
          Event.doDelayedWork r.doDelayedRet, Event.doIdleWork r.doIdleRet,
          Event.uvRun],
        { s with delayedWorkTime := none
                 keepRunning := r.keepAfterPoll }, IterOutcome.next)) ∨
    (∃ t, r.keepAfterDoWork = true ∧ r.keepAfterDelayed = true ∧
      r.doWorkRet = false ∧ r.doDelayedRet = false ∧
      r.keepAfterIdle = true ∧ r.doIdleRet = false ∧
      r.delayedTimeSet = some t ∧ 0 < t - r.now ∧
      iter r s = ([Event.doWork r.doWorkRet,
          Event.doDelayedWork r.doDelayedRet, Event.doIdleWork r.doIdleRet,
          Event.timerStart (t - r.now), Event.uvRun, Event.idleStop,
          Event.timerStop],
        { s with delayedWorkTime := some t
                 keepRunning := r.keepAfterPoll }, IterOutcome.next)) ∨
    (∃ t, r.keepAfterDoWork = true ∧ r.keepAfterDelayed = true ∧
      r.doWorkRet = false ∧ r.doDelayedRet = false ∧
      r.keepAfterIdle = true ∧ r.doIdleRet = false ∧
      r.delayedTimeSet = some t ∧ t - r.now ≤ 0 ∧
      iter r s = ([Event.doWork r.doWorkRet,
          Event.doDelayedWork r.doDelayedRet, Event.doIdleWork r.doIdleRet],
        { s with delayedWorkTime := none
                 keepRunning := r.keepAfterIdle }, IterOutcome.next)) := by
  by_cases h1 : r.keepAfterDoWork
  · by_cases h2 : r.keepAfterDelayed
    · by_cases h3 : (r.doWorkRet || r.doDelayedRet) = true
      · exact Or.inr (Or.inr (Or.inl ⟨h1, h2, h3, by simp [iter, h1, h2, h3]⟩))
      · have h3a : r.doWorkRet = false := by
          cases hb : r.doWorkRet <;> simp_all
        have h3b : r.doDelayedRet = false := by
          cases hb : r.doDelayedRet <;> simp_all
        by_cases h5 : r.keepAfterIdle
        · by_cases h6 : r.doIdleRet
          · exact Or.inr (Or.inr (Or.inr (Or.inr (Or.inl
              ⟨h1, h2, h3a, h3b, h5, h6,
               by simp [iter, h1, h2, h3a, h3b, h5, h6]⟩))))
          · rcases hdt : r.delayedTimeSet with _ | t
            · exact Or.inr (Or.inr (Or.inr (Or.inr (Or.inr (Or.inl
                ⟨h1, h2, h3a, h3b, h5, by simpa using h6, rfl,
                 by simp [iter, h1, h2, h3a, h3b, h5, h6, hdt]⟩)))))
            · by_cases h7 : (0 : Int) < t - r.now
              · exact Or.inr (Or.inr (Or.inr (Or.inr (Or.inr (Or.inr (Or.inl
                  ⟨t, h1, h2, h3a, h3b, h5, by simpa using h6, rfl, h7,
                   by simp [iter, h1, h2, h3a, h3b, h5, h6, hdt, h7]⟩))))))
              · exact Or.inr (Or.inr (Or.inr (Or.inr (Or.inr (Or.inr (Or.inr
                  ⟨t, h1, h2, h3a, h3b, h5, by simpa using h6, rfl,
                   by omega,
                   by simp [iter, h1, h2, h3a, h3b, h5, h6, hdt, h7]⟩))))))
        · exact Or.inr (Or.inr (Or.inr (Or.inl
            ⟨h1, h2, h3a, h3b, by simpa using h5,
             by simp [iter, h1, h2, h3a, h3b, h5]⟩)))
    · exact Or.inr (Or.inl ⟨h1, by simpa using h2, by simp [iter, h1, h2]⟩)
  · exact Or.inl ⟨by simpa using h1, by simp [iter, h1]⟩

/-- When `DoWork` does not clear the termination flag, the iteration goes on
to call `DoDelayedWork`. -/
theorem iter_consults_delayed (r : DelegateResponses) (s : PumpState)
    (h : r.keepAfterDoWork = true) :
    Event.doDelayedWork r.doDelayedRet ∈ (iter r s).1 := by
  unfold iter
  repeat' split
  all_goals simp_all

/-- A delegate-response sequence in which the very first `DoWork` call runs
`Quit` (so `keep_running_` is false right after it) and reports no work; all
later responses are the same. -/
def dQuit : Nat → DelegateResponses := fun _ =>
  { doWorkRet := false
    keepAfterDoWork := false
    doDelayedRet := false
    delayedTimeSet := none
    keepAfterDelayed := false
    doIdleRet := false
    keepAfterIdle := false
    keepAfterTick := false
    keepAfterPoll := false
    now := 0 }

/-- C8: `Run` requires `keep_running_` to be true at entry: invoking it when
the flag is false (a prior `Quit` without reset) hits
`DCHECK(keep_running_) << "Quit must have been called outside of Run!"` and
is a fatal assertion failure. -/
theorem claim8_run_requires_running_flag (d : Nat → DelegateResponses)
    (fuel : Nat) (s : PumpState) (h : s.keepRunning = false) :
    run d fuel s =
      Except.error
        (Fatal.dcheckFailure "Quit must have been called outside of Run!") := by
  unfold run
  rw [if_pos (by simp [h])]

/-- C8 witness: running the pump right after a `Quit` (flag cleared, state
otherwise freshly constructed) is the fatal `DCHECK` failure. -/
theorem claim8_witness :
    run dQuit 1 (quit construct) =
      Except.error
        (Fatal.dcheckFailure "Quit must have been called outside of Run!") :=
  claim8_run_requires_running_flag dQuit 1 (quit construct) rfl

/-- C9: whenever a `Run` invocation returns, `keep_running_` has been reset
to true unconditionally and `nesting_level_` is back to exactly its pre-call
value, so a quit request terminates only the innermost running invocation. -/
theorem claim9_running_reset_nesting_restored (d : Nat → DelegateResponses)
    (fuel : Nat) (s : PumpState) (tr : List Event) (sF : PumpState)
    (h : run d fuel s = Except.ok (RunResult.terminated tr sF)) :
    sF.keepRunning = true ∧ sF.nestingLevel = s.nestingLevel := by
  unfold run at h
  by_cases hk : s.keepRunning
  · rw [if_neg (by simp [hk])] at h
    rcases hrl : runLoop d fuel 0 (runEnter s) with ⟨tr1, s1⟩ | ⟨tr1, s1⟩
    · rw [hrl] at h
      injection h with h1
      injection h1 with h2 h3
      subst h3
      have hn : s1.nestingLevel = (runEnter s).nestingLevel :=
        runLoop_nesting d fuel 0 (runEnter s) tr1 s1 hrl
      have hn2 : (runEnter s).nestingLevel = s.nestingLevel + 1 := by
        unfold runEnter
        split <;> simp
      constructor
      · unfold runExit
        split <;> simp
      · unfold runExit
        split <;> simp [hn, hn2]
    · rw [hrl] at h
      simp at h
  · rw [if_pos (by simp [hk])] at h
    simp at h

/-- C9 witness: a run whose delegate quits in the first `DoWork` call
returns with the flag reset to true and the nesting level back at its
pre-call value `0`. -/
theorem claim9_witness :
    (runExit { construct with keepRunning := false,
                              nestingLevel := 1 }).keepRunning = true ∧
    (runExit { construct with keepRunning := false,
                              nestingLevel := 1 }).nestingLevel =
      construct.nestingLevel :=
  claim9_running_reset_nesting_restored dQuit 1 construct
    [Event.doWork false]
    (runExit { construct with keepRunning := false, nestingLevel := 1 })
    (by rfl)

/-- C10: every `Run` invocation that returns consulted the delegate's
`DoWork` at least once: the loop body calls `DoWork` unconditionally before
its first `keep_running_` check, so the first iteration's `DoWork` call is
always in the trace, even when `Quit` is requested during that very call. -/
theorem claim10_doWork_at_least_once (d : Nat → DelegateResponses)
    (fuel : Nat) (s : PumpState) (tr : List Event) (sF : PumpState)
    (h : run d fuel s = Except.ok (RunResult.terminated tr sF)) :
    Event.doWork ((d 0).doWorkRet) ∈ tr := by
  unfold run at h
  by_cases hk : s.keepRunning
  · rw [if_neg (by simp [hk])] at h
    rcases hrl : runLoop d fuel 0 (runEnter s) with ⟨tr1, s1⟩ | ⟨tr1, s1⟩
    · rw [hrl] at h
      injection h with h1
      injection h1 with h2 h3
      subst h2
      exact runLoop_terminated_doWork d fuel 0 (runEnter s) tr1 s1 hrl
    · rw [hrl] at h
      simp at h
  · rw [if_pos (by simp [hk])] at h
    simp at h

/-- C10 witness: with a delegate that quits during the very first `DoWork`
call, the returned trace still contains that `DoWork` call. -/
theorem claim10_witness :
    Event.doWork ((dQuit 0).doWorkRet) ∈ [Event.doWork false] :=
  claim10_doWork_at_least_once dQuit 1 construct
    [Event.doWork false]
    (runExit { construct with keepRunning := false, nestingLevel := 1 })
    (by rfl)

/-- A response in which the first `DoWork` call reports work and nothing
clears the termination flag. -/
def rWork : DelegateResponses :=
  { doWorkRet := true
    keepAfterDoWork := true
    doDelayedRet := false
    delayedTimeSet := none
    keepAfterDelayed := true
    doIdleRet := false
    keepAfterIdle := true
    keepAfterTick := true
    keepAfterPoll := true
    now := 0 }

/-- A response with no work at all, flag untouched, a recorded deadline of
`10` still in the future at `now = 3`. -/
def rFutureDeadline : DelegateResponses :=
  { doWorkRet := false
    keepAfterDoWork := true
    doDelayedRet := false
    delayedTimeSet := some 10
    keepAfterDelayed := true
    doIdleRet := false
    keepAfterIdle := true
    keepAfterTick := true
    keepAfterPoll := true
    now := 3 }

/-- A response with no work at all, flag untouched, a recorded deadline of
`5` already in the past at `now = 9`. -/
def rPastDeadline : DelegateResponses :=
  { doWorkRet := false
    keepAfterDoWork := true
    doDelayedRet := false
    delayedTimeSet := some 5
    keepAfterDelayed := true
    doIdleRet := false
    keepAfterIdle := true
    keepAfterTick := true
    keepAfterPoll := true
    now := 9 }

/-- C2: in every iteration in which a delegate call reported work (a work
event with result `true` is in the iteration's trace), the blocking poll
`uv_run` is not called in that iteration; and unless the termination flag was
cleared during the iteration's steps (in which case the loop breaks), the
pump notifies the reactor's tick mechanism and restarts the iteration
(`continue`). -/
theorem claim2_did_work_never_blocks (r : DelegateResponses) (s : PumpState)
    (hw : Event.doWork true ∈ (iter r s).1 ∨
          Event.doDelayedWork true ∈ (iter r s).1 ∨
          Event.doIdleWork true ∈ (iter r s).1) :
    Event.uvRun ∉ (iter r s).1 ∧
      (((iter r s).2.2 = IterOutcome.brk ∧
        (iter r s).2.1.keepRunning = false) ∨
       (Event.tick ∈ (iter r s).1 ∧ (iter r s).2.2 = IterOutcome.next)) := by
  rcases iter_shape r s with
    ⟨h1, heq⟩ | ⟨h1, h2, heq⟩ | ⟨h1, h2, h3, heq⟩ |
    ⟨h1, h2, h3, h4, h5, heq⟩ | ⟨h1, h2, h3, h4, h5, h6, heq⟩ |
    ⟨h1, h2, h3, h4, h5, h6, h7, heq⟩ |
    ⟨t, h1, h2, h3, h4, h5, h6, h7, h8, heq⟩ |
    ⟨t, h1, h2, h3, h4, h5, h6, h7, h8, heq⟩ <;>
    rw [heq] at hw ⊢ <;> simp_all

/-- C2 witness: a delegate that reports immediate work in an iteration whose
flag is never cleared: no poll happens, the tick mechanism is notified, and
the iteration restarts. -/
theorem claim2_witness :
    Event.uvRun ∉ (iter rWork construct).1 ∧
      (((iter rWork construct).2.2 = IterOutcome.brk ∧
        (iter rWork construct).2.1.keepRunning = false) ∨
       (Event.tick ∈ (iter rWork construct).1 ∧
        (iter rWork construct).2.2 = IterOutcome.next)) :=
  claim2_did_work_never_blocks rWork construct (Or.inl (by decide))

/-- C4: whenever the pump arms the one-shot delay timer, the timeout passed
to `uv_timer_start` is strictly positive; and when the remaining delay to the
recorded deadline is `≤ 0`, no timer is armed in that iteration, and if the
blocking section was reached the pump instead falls through to the
deadline-has-passed handling, clearing the deadline without polling. -/
theorem claim4_timer_timeout_positive (r : DelegateResponses)
    (s : PumpState) :
    (∀ dly, Event.timerStart dly ∈ (iter r s).1 → 0 < dly) ∧
    (∀ t, r.delayedTimeSet = some t → t - r.now ≤ 0 →
      (∀ dly, Event.timerStart dly ∉ (iter r s).1) ∧
      Event.uvRun ∉ (iter r s).1 ∧
      (r.keepAfterDoWork = true → r.keepAfterDelayed = true →
        r.doWorkRet = false → r.doDelayedRet = false →
        r.keepAfterIdle = true → r.doIdleRet = false →
        (iter r s).2.1.delayedWorkTime = none ∧
        (iter r s).2.2 = IterOutcome.next)) := by
  constructor
  · intro dly hmem
    rcases iter_shape r s with
      ⟨h1, heq⟩ | ⟨h1, h2, heq⟩ | ⟨h1, h2, h3, heq⟩ |
      ⟨h1, h2, h3, h4, h5, heq⟩ | ⟨h1, h2, h3, h4, h5, h6, heq⟩ |
      ⟨h1, h2, h3, h4, h5, h6, h7, heq⟩ |
      ⟨t0, h1, h2, h3, h4, h5, h6, h7, h8, heq⟩ |
      ⟨t0, h1, h2, h3, h4, h5, h6, h7, h8, heq⟩ <;>
      rw [heq] at hmem <;> simp_all
  · intro t ht hle
    rcases iter_shape r s with
      ⟨h1, heq⟩ | ⟨h1, h2, heq⟩ | ⟨h1, h2, h3, heq⟩ |
      ⟨h1, h2, h3, h4, h5, heq⟩ | ⟨h1, h2, h3, h4, h5, h6, heq⟩ |
      ⟨h1, h2, h3, h4, h5, h6, h7, heq⟩ |
      ⟨t0, h1, h2, h3, h4, h5, h6, h7, h8, heq⟩ |
      ⟨t0, h1, h2, h3, h4, h5, h6, h7, h8, heq⟩ <;>
      rw [heq] <;> simp_all <;>
      first
      | omega
      | (intro hx hy
         simp_all)

/-- C4 witness: with a future deadline (`10`, now `3`) the armed timeout `7`
is strictly positive, and with a past deadline (`5`, now `9`) the deadline is
cleared with no timer armed. -/
theorem claim4_witness :
    (0 : Int) < 7 ∧
    (iter rPastDeadline construct).2.1.delayedWorkTime = none :=
  ⟨(claim4_timer_timeout_positive rFutureDeadline construct).1 7 (by decide),
   (((claim4_timer_timeout_positive rPastDeadline construct).2 5 rfl
      (by decide)).2.2 rfl rfl rfl rfl rfl rfl).1⟩

/-- C5: in an iteration where no immediate, delayed or idle work ran (and the
flag stayed set) and the recorded deadline is not in the future at evaluation
time, the pump clears `delayed_work_time_` to the null value, performs no
blocking poll in that iteration, and goes straight to the next iteration,
where `DoDelayedWork` is consulted again (right after `DoWork`, provided that
call does not break the loop). -/
theorem claim5_stale_deadline_cleared (r : DelegateResponses)
    (s : PumpState) (t : Int)
    (hk1 : r.keepAfterDoWork = true) (hw1 : r.doWorkRet = false)
    (hk2 : r.keepAfterDelayed = true) (hw2 : r.doDelayedRet = false)
    (hdt : r.delayedTimeSet = some t)
    (hk3 : r.keepAfterIdle = true) (hw3 : r.doIdleRet = false)
    (hpast : t ≤ r.now) :
    (iter r s).2.1.delayedWorkTime = none ∧
    Event.uvRun ∉ (iter r s).1 ∧
    (iter r s).2.2 = IterOutcome.next ∧
    (∀ r2 : DelegateResponses, r2.keepAfterDoWork = true →
      Event.doDelayedWork r2.doDelayedRet ∈ (iter r2 (iter r s).2.1).1) := by
  have heq : iter r s =
      ([Event.doWork r.doWorkRet, Event.doDelayedWork r.doDelayedRet,
        Event.doIdleWork r.doIdleRet],
       { s with delayedWorkTime := none
                keepRunning := r.keepAfterIdle }, IterOutcome.next) := by
    simp [iter, hk1, hk2, hw1, hw2, hk3, hw3, hdt]
    omega
  rw [heq]
  refine ⟨rfl, by simp, rfl, ?_⟩
  intro r2 h2
  exact iter_consults_delayed r2 _ h2

/-- C5 witness: with no work and the past deadline `5` at `now = 9`, the
deadline is cleared, no poll happens, and the next iteration consults
`DoDelayedWork` again. -/
theorem claim5_witness :
    (iter rPastDeadline construct).2.1.delayedWorkTime = none ∧
    Event.doDelayedWork rPastDeadline.doDelayedRet ∈
      (iter rPastDeadline (iter rPastDeadline construct).2.1).1 :=
  ⟨(claim5_stale_deadline_cleared rPastDeadline construct 5
      rfl rfl rfl rfl rfl rfl rfl (by decide)).1,
   (claim5_stale_deadline_cleared rPastDeadline construct 5
      rfl rfl rfl rfl rfl rfl rfl (by decide)).2.2.2 rPastDeadline rfl⟩

/-- A delegate-response sequence whose first iteration reports immediate
work with the flag intact, but whose tick-callback notification runs `Quit`
(`keep_running_` is false right after `CallTickCallback` returns); from the
second iteration on, the delegate reports nothing and leaves the flag
cleared. -/
def dTickQuit : Nat → DelegateResponses
  | 0 =>
    { doWorkRet := true
      keepAfterDoWork := true
      doDelayedRet := false
      delayedTimeSet := none
      keepAfterDelayed := true
      doIdleRet := false
      keepAfterIdle := true
      keepAfterTick := false
      keepAfterPoll := true
      now := 0 }
  | _ + 1 => dQuit 0

/-- C6 counterexample: when the termination flag is cleared during the tick
notification, the loop does not unwind there: with `dTickQuit`, after one
iteration the flag is already false (first equation, exposing the state at
the fuel boundary), yet the two-iteration trace shows a further delegate
step — the next iteration's `DoWork` call — executing after the tick, before
the loop finally breaks.  The same gap exists after `uv_run`: the flag is
only re-checked after the three delegate work calls, never directly after
the tick notification or the blocking poll. -/
theorem claim6_counterexample :
    (dTickQuit 0).keepAfterTick = false ∧
    runLoop dTickQuit 1 0 construct =
      RunResult.fuelOut
        [Event.doWork true, Event.doDelayedWork false, Event.tick]
        { construct with keepRunning := false } ∧
    runLoop dTickQuit 2 0 construct =
      RunResult.terminated
        [Event.doWork true, Event.doDelayedWork false, Event.tick,
         Event.doWork false]
        { construct with keepRunning := false } := by
  refine ⟨rfl, ?_, ?_⟩ <;> rfl

/-- C6 (amended): only the three delegate work steps (immediate, delayed,
idle) re-check the termination flag immediately after they complete, and for
those a cleared flag makes the loop break without executing any further step
of the iteration; after the tick notification and after the blocking poll
there is no flag check — the iteration always continues to the next one,
whose `DoWork` call runs before the cleared flag can be observed. -/
theorem claim6_amended_flag_rechecks (r : DelegateResponses)
    (s : PumpState) :
    (r.keepAfterDoWork = false →
      (iter r s).1 = [Event.doWork r.doWorkRet] ∧
      (iter r s).2.2 = IterOutcome.brk) ∧
    (r.keepAfterDoWork = true → r.keepAfterDelayed = false →
      (iter r s).1 = [Event.doWork r.doWorkRet,
        Event.doDelayedWork r.doDelayedRet] ∧
      (iter r s).2.2 = IterOutcome.brk) ∧
    (r.keepAfterDoWork = true → r.keepAfterDelayed = true →
      r.doWorkRet = false → r.doDelayedRet = false →
      r.keepAfterIdle = false →
      (iter r s).1 = [Event.doWork r.doWorkRet,
        Event.doDelayedWork r.doDelayedRet,
        Event.doIdleWork r.doIdleRet] ∧
      (iter r s).2.2 = IterOutcome.brk) ∧
    (Event.tick ∈ (iter r s).1 → (iter r s).2.2 = IterOutcome.next) ∧
    (Event.uvRun ∈ (iter r s).1 → (iter r s).2.2 = IterOutcome.next) := by
  rcases iter_shape r s with
    ⟨h1, heq⟩ | ⟨h1, h2, heq⟩ | ⟨h1, h2, h3, heq⟩ |
    ⟨h1, h2, h3, h4, h5, heq⟩ | ⟨h1, h2, h3, h4, h5, h6, heq⟩ |
    ⟨h1, h2, h3, h4, h5, h6, h7, heq⟩ |
    ⟨t0, h1, h2, h3, h4, h5, h6, h7, h8, heq⟩ |
    ⟨t0, h1, h2, h3, h4, h5, h6, h7, h8, heq⟩ <;>
    rw [heq] <;> simp_all <;>
    (intro hx hy
     simp_all)

/-- C6 amended witness: in the `dTickQuit` first iteration the tick event is
in the trace and the iteration outcome is `next` (no unwind at the tick),
even though the flag was cleared during the tick callback. -/
theorem claim6_amended_witness :
    (iter (dTickQuit 0) construct).2.2 = IterOutcome.next :=
  (claim6_amended_flag_rechecks (dTickQuit 0) construct).2.2.2.1 (by decide)

/-- The pump state during the body of a first-level nested `Run` (depth 2):
the construction-time handle is `1` (still `wakeup_event_`), the nested
invocation has created private loop number one and async handle `2`, which is
the current `wakeup_event_ref_`. -/
def sNested2 : PumpState :=
  { keepRunning := true
    nestingLevel := 2
    delayedWorkTime := none
    wakeupEvent := 1
    wakeupRef := 2
    nextHandle := 3
    liveNestedLoops := 1
    deletedHandles := [] }

/-- C3: evaluation of a doubly nested `Run` (entered while `nesting_level_`
is already 2, i.e. depth 3).  The enclosing (depth-2) invocation's wake
signal is handle `2`; the depth-3 invocation allocates handle `3` and, on
exit, deletes it and destroys its private loop — but then restores
`wakeup_event_ref_` to `wakeup_event_` (the outermost handle `1`, see
`wakeup_event_ref_ = wakeup_event_;` at line 129), not to the enclosing
level's handle `2`, which has leaked.  The code's own comment at line 128
says "Restore previous async handle."  The resulting state has
`wakeupRef = 1` while the enclosing signal was `2`. -/
theorem claim3_depth3_restores_outermost_signal :
    run dQuit 1 sNested2 =
      Except.ok (RunResult.terminated [Event.doWork false]
        { keepRunning := true
          nestingLevel := 2
          delayedWorkTime := none
          wakeupEvent := 1
          wakeupRef := 1
          nextHandle := 4
          liveNestedLoops := 1
          deletedHandles := [3] }) ∧
    sNested2.wakeupRef = 2 ∧ (1 : Nat) ≠ 2 := by
  refine ⟨?_, rfl, by decide⟩
  rfl

/-- The pump state as seen while a single `Run` invocation is on the stack
(freshly constructed pump, `nesting_level_` = 1). -/
def sMidRun : PumpState :=
  { construct with nestingLevel := 1 }

/-- C7 counterexample: destroying the pump while a `Run` invocation is on
the call stack (`nesting_level_ = 1 > 0`) does not fail: the destructor has
no assertion at all (lines 44-47 are just `delete wakeup_event_;
wakeup_event_ = NULL;`), so it succeeds and releases the outermost wake
signal. -/
theorem claim7_counterexample :
    0 < sMidRun.nestingLevel ∧
    destruct sMidRun =
      Except.ok { sMidRun with deletedHandles := [1], wakeupEvent := 0 } := by
  refine ⟨by decide, ?_⟩
  rfl

/-- C7 (amended): the destructor releases the outermost wake signal
unconditionally and performs no precondition check: even while a run
invocation is still on the call stack it succeeds, deleting
`wakeup_event_` and nulling the member. -/
theorem claim7_amended_destructor_unchecked (s : PumpState)
    (_h : 0 < s.nestingLevel) :
    destruct s =
      Except.ok { s with
        deletedHandles := s.wakeupEvent :: s.deletedHandles
        wakeupEvent := 0 } :=
  rfl

/-- C7 amended witness: the destructor succeeds at nesting level 1. -/
theorem claim7_amended_witness :
    destruct sMidRun =
      Except.ok { sMidRun with
        deletedHandles := sMidRun.wakeupEvent :: sMidRun.deletedHandles
        wakeupEvent := 0 } :=
  claim7_amended_destructor_unchecked sMidRun (by decide)

end MessagePumpUV
